import Mathlib

/-!
Verification development for the shuffle-serving subsystem
(`src/shuffle_manager.rs` of native_spark).

The Rust code is shallowly embedded below:
* paths are strings, joined with Rust `PathBuf::join` semantics (an
  argument that starts with a slash replaces the base path entirely);
* `usize`/`u64` values are `Nat` with explicit bounds where overflow or
  parse-overflow matters (the build is assumed 64-bit, so the
  `as usize` cast in `parse_path_part` is the identity);
* randomness (`thread_rng.gen_range`, `Uuid::new_v4`) and filesystem /
  bind outcomes are passed in as explicit oracle functions, so one run
  of a loop is a pure function of its oracles;
* HTTP bodies are byte lists; the bytes of a text body are the code
  points of its characters (all relevant text is ASCII).
-/

namespace NSpark

/-- Bytes of a string body, one number per character (ASCII-faithful). -/
def strBytes (s : String) : List Nat := s.data.map Char.toNat

/-- The `ShuffleManagerError` enum of `shuffle_manager.rs`. -/
inductive ShuffleManagerError where
  | CouldNotCreateShuffleDir : ShuffleManagerError
  | FailedToParseUri : String → ShuffleManagerError
  | FailedToStart : ShuffleManagerError
  | FreePortNotFound : Nat → ShuffleManagerError
  | RequestedCacheNotFound : ShuffleManagerError
  | NotValidEndpoint : ShuffleManagerError
deriving DecidableEq, Repr

/-- An HTTP response as observed on the wire: status code and body bytes. -/
structure HttpResponse where
  status : Nat
  body : List Nat
deriving DecidableEq, Repr

/-- The `Into Response Body for ShuffleManagerError` impl: maps each error
to a wire response.  `FailedToStart` and `RequestedCacheNotFound` become
404 with empty body, `FailedToParseUri uri` becomes 400 with body
`Failed to parse: uri`, everything else 500 with empty body. -/
def errorResponse : ShuffleManagerError → HttpResponse
  | .FailedToStart => ⟨404, []⟩
  | .FailedToParseUri uri => ⟨400, strBytes ("Failed to parse: " ++ uri)⟩
  | .RequestedCacheNotFound => ⟨404, []⟩
  | _ => ⟨500, []⟩

/-- Decimal digit to its character, as produced by Rust integer `Display`. -/
def digitChar : Nat → Char
  | 0 => '0' | 1 => '1' | 2 => '2' | 3 => '3' | 4 => '4'
  | 5 => '5' | 6 => '6' | 7 => '7' | 8 => '8' | 9 => '9'
  | _ => '*'

/-- Character to decimal digit, as accepted by `u64::from_str_radix(_, 10)`. -/
def charDigit (c : Char) : Option Nat :=
  if c = '0' then some 0 else if c = '1' then some 1
  else if c = '2' then some 2 else if c = '3' then some 3
  else if c = '4' then some 4 else if c = '5' then some 5
  else if c = '6' then some 6 else if c = '7' then some 7
  else if c = '8' then some 8 else if c = '9' then some 9
  else none

/-- Little-endian decimal digits of `n`, with explicit fuel (`fuel ≥ n`
suffices for `n ≥ 1`). -/
def decDigitsAux : Nat → Nat → List Nat
  | 0, _ => []
  | _ + 1, 0 => []
  | fuel + 1, n + 1 => ((n + 1) % 10) :: decDigitsAux fuel ((n + 1) / 10)

/-- Decimal rendering of a natural number, as Rust `format` renders an
unsigned integer. -/
def natToDecimal (n : Nat) : String :=
  if n = 0 then "0" else String.mk ((decDigitsAux n n).reverse.map digitChar)

/-- Drop one leading plus sign, as `u64::from_str_radix` allows. -/
def stripPlus : List Char → List Char
  | [] => []
  | c :: rest => if c = '+' then rest else c :: rest

/-- Accumulate the value of a run of decimal digit characters; `none` if a
non-digit appears. -/
def digitsValue : List Char → Nat → Option Nat
  | [], acc => some acc
  | c :: cs, acc =>
    match charDigit c with
    | some d => digitsValue cs (acc * 10 + d)
    | none => none

/-- `ShuffleService::parse_path_part`: `u64::from_str_radix(part, 10)` then
`as usize` (identity on the assumed 64-bit target).  An optional leading
plus sign, then at least one decimal digit, value below 2 to the 64. -/
def parse_path_part (s : List Char) : Option Nat :=
  match stripPlus s with
  | [] => none
  | c :: cs =>
    match digitsValue (c :: cs) 0 with
    | some v => if v < 18446744073709551616 then some v else none
    | none => none

/-- Prepend a character onto the first segment of a split result. -/
def consHead (c : Char) : List (List Char) → List (List Char)
  | s :: ss => (c :: s) :: ss
  | [] => [[c]]

/-- Rust `str::split` on the slash character: splits a character list at
every slash, keeping empty segments (so a leading slash yields a leading
empty segment). -/
def splitSlash : List Char → List (List Char)
  | [] => [[]]
  | c :: rest =>
    if c = '/' then [] :: splitSlash rest
    else consHead c (splitSlash rest)

/-- First character is a slash (Rust `Path::is_absolute` on Unix). -/
def leadSlash (s : String) : Bool :=
  match s.data with
  | [] => false
  | c :: _ => c == '/'

/-- Last character is a slash. -/
def endSlash (s : String) : Bool :=
  match s.data.getLast? with
  | some c => c == '/'
  | none => false

/-- Rust `PathBuf::join` on Unix: an absolute argument (leading slash)
replaces the base path entirely; otherwise the argument is appended with a
separating slash. -/
def pathJoin (base piece : String) : String :=
  if leadSlash piece then piece
  else if base = "" then piece
  else if endSlash base then base ++ piece
  else base ++ "/" ++ piece

/-- Boolean path-prefix test: `p` lies at or beneath the path text `dir`. -/
def charsUnder : List Char → List Char → Bool
  | [], _ => true
  | _ :: _, [] => false
  | a :: as, b :: bs => a = b && charsUnder as bs

/-- `p` lies beneath `dir` textually: `dir` is a prefix of `p`. -/
def underDir (dir p : String) : Bool := charsUnder dir.data p.data

/-- `ShuffleManager::get_output_file` (lines 51-59): join
`/shuffle_id/input_id` onto the shuffle directory, then join `output_id`,
and return the resulting path string.  The filesystem side effects
(`create_dir_all`, `File::create`) target exactly this path and do not
change it, so the path computation is the observable value. -/
def get_output_file (shuffle_dir : String)
    (shuffle_id input_id output_id : Nat) : String :=
  let path := pathJoin shuffle_dir
    ("/" ++ natToDecimal shuffle_id ++ "/" ++ natToDecimal input_id)
  pathJoin path (natToDecimal output_id)

/-- The retry loop of `ShuffleManager::get_local_work_dir` (lines 125-140):
up to 10 attempts; attempt `i` joins `/spark-local-` concatenated with the
i-th random token onto the configured root, keeps it if no directory exists
there, otherwise retries; exhaustion yields `CouldNotCreateShuffleDir`.
`uuids` is the random-token oracle and `existsDir` the filesystem oracle. -/
def work_dir_loop (root : String) (uuids : Nat → String)
    (existsDir : String → Bool) : Nat → Nat → Except ShuffleManagerError String
  | 0, _ => .error .CouldNotCreateShuffleDir
  | fuel + 1, i =>
    let dir := pathJoin root ("/spark-local-" ++ uuids i)
    if existsDir dir then work_dir_loop root uuids existsDir fuel (i + 1)
    else .ok dir

/-- `ShuffleManager::get_local_work_dir`: the loop run with 10 attempts. -/
def get_local_work_dir (root : String) (uuids : Nat → String)
    (existsDir : String → Bool) : Except ShuffleManagerError String :=
  work_dir_loop root uuids existsDir 10 0

/-- `get_dynamic_port` (lines 145-149): 49152 plus a uniform draw from
`gen_range(0, 65535 - 49152)`; the draw oracle is reduced modulo the range
width exactly as the sampler's codomain prescribes, and the u16 addition is
reduced modulo 2 to the 16. -/
def get_dynamic_port (draw : Nat) : Nat :=
  (49152 + draw % (65535 - 49152)) % 65536

/-- The dynamic-port retry loop of `ShuffleManager::start_server`
(lines 72-88), instrumented with the list of ports it attempts.  At retry
`i` it draws a port; a successful bind (per the `outcomes` oracle, the
result of `launch_async_runtime`) adopts it; a failure at retry 9 aborts
with `FreePortNotFound` of that port; otherwise it retries. -/
def start_server_loop (draws : Nat → Nat) (outcomes : Nat → Bool) :
    Nat → Nat → Except ShuffleManagerError Nat × List Nat
  | 0, _ => (.ok 0, [])
  | fuel + 1, retry =>
    let bindPort := get_dynamic_port (draws retry)
    if outcomes retry then (.ok bindPort, [bindPort])
    else if retry = 9 then (.error (.FreePortNotFound bindPort), [bindPort])
    else
      let r := start_server_loop draws outcomes fuel (retry + 1)
      (r.1, bindPort :: r.2)

/-- The ports attempted by one dynamic-port acquisition (10-iteration
loop starting at retry 0), in order. -/
def attempted_ports (draws : Nat → Nat) (outcomes : Nat → Bool) : List Nat :=
  (start_server_loop draws outcomes 10 0).2

/-- The server URI composed by `start_server`:
`http://` then the bind ip then a colon then the decimal port. -/
def server_uri (ip : String) (port : Nat) : String :=
  "http://" ++ ip ++ ":" ++ natToDecimal port

/-- `ShuffleManager::start_server` in dynamic-port mode (`port = None`):
run the retry loop and wrap the adopted port into the server URI. -/
def start_server_none (ip : String) (draws : Nat → Nat)
    (outcomes : Nat → Bool) : Except ShuffleManagerError String :=
  (start_server_loop draws outcomes 10 0).1.map (server_uri ip)

/-- Modelled from the spec: the process-wide shuffle cache lives in
`env.rs`, which is not part of the embedded source; per the spec it is a
concurrently readable mapping from a ShuffleCoordinate triple to a byte
sequence, of which this core only performs lookups.  A cache state is the
underlying partial map. -/
def ShuffleCache : Type := Nat × Nat × Nat → Option (List Nat)

/-- `ShuffleService::get_cached_data` (lines 174-192) on the three path
segments: parse each segment; any parse failure becomes
`FailedToParseUri` carrying the request URI; then look the triple up in
the cache, copying the bytes out on a hit and failing with
`RequestedCacheNotFound` on a miss. -/
def get_cached_data (cache : ShuffleCache) (uri : String)
    (a b c : List Char) : Except ShuffleManagerError (List Nat) :=
  match parse_path_part a, parse_path_part b, parse_path_part c with
  | some p0, some p1, some p2 =>
    match cache (p0, p1, p2) with
    | some cached_data => .ok cached_data
    | none => .error .RequestedCacheNotFound
  | _, _, _ => .error (.FailedToParseUri uri)

/-- The `ShuffleResponse` enum of the service. -/
inductive ShuffleResponse where
  | Status : Nat → ShuffleResponse
  | CachedData : List Nat → ShuffleResponse
deriving DecidableEq, Repr

/-- `ShuffleService::response_type` (lines 161-172): split the request
path on slashes; a two-segment split whose second segment is `status`
answers with status OK; a five-segment split whose second segment is
`shuffle` goes through the cache lookup; anything else fails with
`FailedToParseUri` carrying the URI text. -/
def response_type (cache : ShuffleCache) (uri : String) :
    Except ShuffleManagerError ShuffleResponse :=
  match splitSlash uri.data with
  | [_, e] =>
    if e = "status".data then .ok (.Status 200)
    else .error (.FailedToParseUri uri)
  | [_, e, a, b, c] =>
    if e = "shuffle".data then
      (get_cached_data cache uri a b c).map .CachedData
    else .error (.FailedToParseUri uri)
  | _ => .error (.FailedToParseUri uri)

/-- An incoming HTTP request: the service only ever reads `uri`; method,
headers and request body are carried to show exactly that. -/
structure HttpRequest where
  method : String
  headers : List (String × String)
  reqBody : List Nat
  uri : String

/-- `Service::call` for `ShuffleService` (lines 210-228): classify the
request URI; a Status answer becomes that status with empty body, cached
data becomes 200 with the data as body, and an error is mapped through the
error-to-response conversion. -/
def call (cache : ShuffleCache) (req : HttpRequest) : HttpResponse :=
  match response_type cache req.uri with
  | .ok (.Status code) => ⟨code, []⟩
  | .ok (.CachedData cached_data) => ⟨200, cached_data⟩
  | .error e => errorResponse e

/-- The request path has the well-formed shuffle shape: it splits into
five segments whose second is `shuffle` and whose last three all parse as
non-negative integers. -/
def isShuffleForm (path : String) : Bool :=
  match splitSlash path.data with
  | [_, e, a, b, c] =>
    e == "shuffle".data && (parse_path_part a).isSome
      && (parse_path_part b).isSome && (parse_path_part c).isSome
  | _ => false

/-- Value of a little-endian decimal digit list. -/
def decValue (L : List Nat) : Nat := L.foldr (fun d a => d + 10 * a) 0

/-- Strings with equal character data are equal. -/
theorem str_eq_of_data {a b : String} (h : a.data = b.data) : a = b := by
  cases a
  cases b
  exact congrArg String.mk h

/-- Every dynamically drawn port lies in the half-open dynamic range. -/
theorem dyn_port_range (x : Nat) :
    49152 ≤ get_dynamic_port x ∧ get_dynamic_port x < 65535 := by
  have h : x % (65535 - 49152) < 65535 - 49152 := Nat.mod_lt _ (by norm_num)
  unfold get_dynamic_port
  rw [Nat.mod_eq_of_lt (by omega)]
  omega

/-- A slash split is never the empty list of segments. -/
theorem splitSlash_ne_nil (l : List Char) : splitSlash l ≠ [] := by
  induction l with
  | nil => simp [splitSlash]
  | cons c rest ih =>
    simp only [splitSlash]
    split
    · simp
    · cases h : splitSlash rest with
      | nil => exact absurd h ih
      | cons s ss => simp [consHead]

/-- Splitting a slash-free string yields that single segment. -/
theorem splitSlash_no_slash (xs : List Char) (h : ∀ c ∈ xs, c ≠ '/') :
    splitSlash xs = [xs] := by
  induction xs with
  | nil => rfl
  | cons c rest ih =>
    have hc : c ≠ '/' := h c (by simp)
    have hr := ih (fun d hd => h d (by simp [hd]))
    simp [splitSlash, if_neg hc, hr, consHead]

/-- Splitting past a slash that follows a slash-free chunk peels off that
chunk as one segment. -/
theorem splitSlash_append (xs rest : List Char) (h : ∀ c ∈ xs, c ≠ '/') :
    splitSlash (xs ++ '/' :: rest) = xs :: splitSlash rest := by
  induction xs with
  | nil => simp [splitSlash]
  | cons c t ih =>
    have hc : c ≠ '/' := h c (by simp)
    have ht := ih (fun d hd => h d (by simp [hd]))
    simp [splitSlash, if_neg hc, ht, consHead]

/-- A split with exactly one segment means the string had no slash, and the
segment is the whole string. -/
theorem splitSlash_single (l m : List Char) (h : splitSlash l = [m]) :
    l = m := by
  induction l generalizing m with
  | nil =>
    simp only [splitSlash] at h
    simpa using h
  | cons c rest ih =>
    simp only [splitSlash] at h
    split at h
    · injection h with _ h2
      exact absurd h2 (splitSlash_ne_nil rest)
    · cases hr : splitSlash rest with
      | nil => exact absurd hr (splitSlash_ne_nil rest)
      | cons s ss =>
        rw [hr] at h
        simp only [consHead] at h
        injection h with h1 h2
        subst h2
        rw [← h1, ih s hr]

/-- All digits produced by the fueled decimal expansion are below ten. -/
theorem decDigitsAux_lt (fuel n : Nat) :
    ∀ d ∈ decDigitsAux fuel n, d < 10 := by
  induction fuel generalizing n with
  | zero => simp [decDigitsAux]
  | succ f ih =>
    cases n with
    | zero => simp [decDigitsAux]
    | succ m =>
      simp only [decDigitsAux]
      intro d hd
      rcases List.mem_cons.mp hd with h | h
      · subst h
        exact Nat.mod_lt _ (by norm_num)
      · exact ih _ d h

/-- With enough fuel the decimal expansion evaluates back to its input. -/
theorem decDigitsAux_val (fuel : Nat) :
    ∀ n, n ≤ fuel → decValue (decDigitsAux fuel n) = n := by
  induction fuel with
  | zero =>
    intro n h
    have : n = 0 := by omega
    subst this
    rfl
  | succ f ih =>
    intro n h
    cases n with
    | zero => rfl
    | succ m =>
      have hdiv : (m + 1) / 10 ≤ f := by
        have := Nat.div_lt_self (Nat.succ_pos m) (by norm_num : 1 < 10)
        omega
      simp only [decDigitsAux, decValue, List.foldr_cons]
      have hv := ih ((m + 1) / 10) hdiv
      rw [decValue] at hv
      rw [hv]
      omega

/-- With enough fuel the decimal expansion of a positive number is
nonempty. -/
theorem decDigitsAux_ne_nil (fuel n : Nat) (h1 : 1 ≤ n) (h2 : n ≤ fuel) :
    decDigitsAux fuel n ≠ [] := by
  cases fuel with
  | zero => omega
  | succ f =>
    cases n with
    | zero => omega
    | succ m => simp [decDigitsAux]

/-- Reading back the character of a decimal digit recovers the digit. -/
theorem charDigit_digitChar (d : Nat) (h : d < 10) :
    charDigit (digitChar d) = some d := by
  interval_cases d <;> decide

/-- Decimal digit characters are not the slash character. -/
theorem digitChar_ne_slash (d : Nat) (h : d < 10) : digitChar d ≠ '/' := by
  interval_cases d <;> decide

/-- Decimal digit characters are not the plus character. -/
theorem digitChar_ne_plus (d : Nat) (h : d < 10) : digitChar d ≠ '+' := by
  interval_cases d <;> decide

/-- Accumulating over rendered digit characters computes the left fold of
the digits. -/
theorem digitsValue_map (ds : List Nat) (h : ∀ d ∈ ds, d < 10) :
    ∀ acc, digitsValue (ds.map digitChar) acc
      = some (ds.foldl (fun a d => a * 10 + d) acc) := by
  induction ds with
  | nil => intro acc; rfl
  | cons d t ih =>
    intro acc
    have hd : d < 10 := h d (by simp)
    simp only [List.map_cons, digitsValue, charDigit_digitChar d hd,
      List.foldl_cons]
    exact ih (fun x hx => h x (by simp [hx])) _

/-- The big-endian fold of a digit list against an accumulator. -/
theorem foldl_mul_add (L : List Nat) :
    ∀ acc, L.reverse.foldl (fun a d => a * 10 + d) acc
      = acc * 10 ^ L.length + decValue L := by
  induction L with
  | nil => intro acc; simp [decValue]
  | cons d t ih =>
    intro acc
    simp only [List.reverse_cons, List.foldl_append, List.foldl_cons,
      List.foldl_nil, ih, decValue, List.foldr_cons, List.length_cons]
    ring

/-- Character data of the decimal rendering of a positive number. -/
theorem natToDecimal_data (n : Nat) (h : 1 ≤ n) :
    (natToDecimal n).data = (decDigitsAux n n).reverse.map digitChar := by
  rw [natToDecimal, if_neg (by omega)]

/-- No character of a decimal rendering is a slash. -/
theorem natToDecimal_no_slash (n : Nat) :
    ∀ c ∈ (natToDecimal n).data, c ≠ '/' := by
  by_cases h : n = 0
  · subst h
    decide
  · rw [natToDecimal_data n (by omega)]
    intro c hc
    simp only [List.mem_map, List.mem_reverse] at hc
    obtain ⟨d, hd, rfl⟩ := hc
    exact digitChar_ne_slash d (decDigitsAux_lt n n d hd)

/-- Parsing the decimal rendering of a number below two to the 64 recovers
the number: `parse_path_part` inverts `natToDecimal` on the u64 range. -/
theorem parse_natToDecimal (n : Nat) (h : n < 18446744073709551616) :
    parse_path_part (natToDecimal n).data = some n := by
  by_cases h0 : n = 0
  · subst h0
    decide
  · have h1 : 1 ≤ n := by omega
    have hmem : ∀ d ∈ (decDigitsAux n n).reverse, d < 10 :=
      fun d hd => decDigitsAux_lt n n d (List.mem_reverse.mp hd)
    have hval : digitsValue ((decDigitsAux n n).reverse.map digitChar) 0
        = some n := by
      rw [digitsValue_map _ hmem 0, foldl_mul_add, decDigitsAux_val n n le_rfl]
      simp
    obtain ⟨d0, t, ht⟩ : ∃ d0 t, (decDigitsAux n n).reverse = d0 :: t := by
      cases hrev : (decDigitsAux n n).reverse with
      | nil =>
        exfalso
        apply decDigitsAux_ne_nil n n h1 le_rfl
        simpa using congrArg List.reverse hrev
      | cons a b => exact ⟨a, b, rfl⟩
    have hd0 : d0 < 10 := hmem d0 (by rw [ht]; simp)
    rw [natToDecimal_data n h1, ht]
    rw [ht] at hval
    simp only [List.map_cons]
    simp only [List.map_cons] at hval
    rw [parse_path_part, stripPlus, if_neg (digitChar_ne_plus d0 hd0)]
    simp [hval, h]

/-- Character data of a well-formed shuffle request path. -/
theorem shuffle_uri_data (a b c : String) :
    ("/shuffle/" ++ a ++ "/" ++ b ++ "/" ++ c).data
      = '/' :: ("shuffle".data ++ '/' :: (a.data ++ '/' :: (b.data ++ '/' :: c.data))) := by
  simp [String.data_append, List.append_assoc]

/-- Splitting a well-formed shuffle path yields the five expected
segments. -/
theorem splitSlash_shuffle_path (s1 s2 s3 : List Char)
    (h1 : ∀ c ∈ s1, c ≠ '/') (h2 : ∀ c ∈ s2, c ≠ '/')
    (h3 : ∀ c ∈ s3, c ≠ '/') :
    splitSlash ('/' :: ("shuffle".data ++ '/' :: (s1 ++ '/' :: (s2 ++ '/' :: s3))))
      = [[], "shuffle".data, s1, s2, s3] := by
  have hshuffle : ∀ c ∈ "shuffle".data, c ≠ '/' := by decide
  rw [show splitSlash ('/' :: ("shuffle".data ++ '/' :: (s1 ++ '/' :: (s2 ++ '/' :: s3))))
      = [] :: splitSlash ("shuffle".data ++ '/' :: (s1 ++ '/' :: (s2 ++ '/' :: s3)))
    from by simp [splitSlash]]
  rw [splitSlash_append _ _ hshuffle, splitSlash_append _ _ h1,
    splitSlash_append _ _ h2, splitSlash_no_slash _ h3]

/-- A classification error makes the service answer with its mapped
response. -/
theorem call_error (cache : ShuffleCache) (req : HttpRequest)
    (e : ShuffleManagerError)
    (h : response_type cache req.uri = .error e) :
    call cache req = errorResponse e := by
  unfold call
  rw [h]

/-- On a well-formed shuffle path the service answer is exactly the cache
lookup of the coordinate: the bytes with status 200 on a hit, 404 with
empty body on a miss. -/
theorem call_shuffle_eq (cache : ShuffleCache) (req : HttpRequest)
    (s i r : Nat)
    (hs : s < 18446744073709551616) (hi : i < 18446744073709551616)
    (hr : r < 18446744073709551616)
    (hu : req.uri = "/shuffle/" ++ natToDecimal s ++ "/" ++ natToDecimal i
      ++ "/" ++ natToDecimal r) :
    call cache req = match cache (s, i, r) with
      | some B => ⟨200, B⟩
      | none => ⟨404, []⟩ := by
  have hsplit : splitSlash req.uri.data
      = [[], "shuffle".data, (natToDecimal s).data, (natToDecimal i).data,
        (natToDecimal r).data] := by
    rw [hu, shuffle_uri_data,
      splitSlash_shuffle_path _ _ _ (natToDecimal_no_slash s)
        (natToDecimal_no_slash i) (natToDecimal_no_slash r)]
  unfold call response_type
  rw [hsplit]
  simp only [get_cached_data, parse_natToDecimal s hs, parse_natToDecimal i hi,
    parse_natToDecimal r hr]
  cases hcc : cache (s, i, r) with
  | some B => simp [hcc, Except.map]
  | none => simp [hcc, Except.map, errorResponse]

/-- The retry loop attempts at most as many ports as it has fuel. -/
theorem loop_trace_length (draws : Nat → Nat) (outcomes : Nat → Bool) :
    ∀ fuel retry,
      (start_server_loop draws outcomes fuel retry).2.length ≤ fuel := by
  intro fuel
  induction fuel with
  | zero =>
    intro retry
    simp [start_server_loop]
  | succ f ih =>
    intro retry
    simp only [start_server_loop]
    split
    · simp
    · split
      · simp
      · simpa using ih (retry + 1)

/-- Every port the retry loop attempts is a dynamic-port draw. -/
theorem loop_trace_mem (draws : Nat → Nat) (outcomes : Nat → Bool) :
    ∀ fuel retry p, p ∈ (start_server_loop draws outcomes fuel retry).2 →
      ∃ k, p = get_dynamic_port (draws k) := by
  intro fuel
  induction fuel with
  | zero =>
    intro retry p hp
    simp [start_server_loop] at hp
  | succ f ih =>
    intro retry p hp
    simp only [start_server_loop] at hp
    split at hp
    · simp at hp
      exact ⟨retry, hp⟩
    · split at hp
      · simp at hp
        exact ⟨retry, hp⟩
      · simp at hp
        rcases hp with hp | hp
        · exact ⟨retry, hp⟩
        · exact ih (retry + 1) p hp

/-- When every bind attempt fails, the loop ends with `FreePortNotFound`
of the port drawn at retry 9. -/
theorem loop_all_fail (draws : Nat → Nat) (outcomes : Nat → Bool)
    (hall : ∀ k, k < 10 → outcomes k = false) :
    ∀ fuel retry, fuel + retry = 10 → 1 ≤ fuel →
      (start_server_loop draws outcomes fuel retry).1
        = .error (.FreePortNotFound (get_dynamic_port (draws 9))) := by
  intro fuel
  induction fuel with
  | zero =>
    intro retry _ hf
    omega
  | succ f ih =>
    intro retry hsum _
    simp only [start_server_loop]
    rw [hall retry (by omega)]
    by_cases h9 : retry = 9
    · subst h9
      simp
    · have hf : 1 ≤ f := by omega
      simp only [Bool.false_eq_true, if_false, if_neg h9]
      exact ih (retry + 1) (by omega) hf

/-- When the first successful bind attempt is at retry `j`, the loop adopts
the port drawn at retry `j`. -/
theorem loop_first_success (draws : Nat → Nat) (outcomes : Nat → Bool)
    (j : Nat) (hj : j < 10) (hjt : outcomes j = true) :
    ∀ fuel retry, fuel + retry = 10 → retry ≤ j →
      (∀ k, retry ≤ k → k < j → outcomes k = false) →
      (start_server_loop draws outcomes fuel retry).1
        = .ok (get_dynamic_port (draws j)) := by
  intro fuel
  induction fuel with
  | zero =>
    intro retry hsum hle _
    omega
  | succ f ih =>
    intro retry hsum hle hfail
    simp only [start_server_loop]
    by_cases hrj : retry = j
    · subst hrj
      rw [hjt]
      simp
    · have hlt : retry < j := by omega
      rw [hfail retry le_rfl hlt]
      have h9 : retry ≠ 9 := by omega
      simp only [Bool.false_eq_true, if_false, if_neg h9]
      exact ih (retry + 1) (by omega) (by omega)
        (fun k hk1 hk2 => hfail k (by omega) hk2)

/-- Claim C1: `get_output_file` is claimed to return a path beneath the
manager's shuffle directory.  It does not: because the joined fragment
starts with a slash, `PathBuf::join` discards the shuffle directory, and
the returned path sits at the filesystem root.  Evaluated at the shuffle
directory `/tmp/spark-local-x/shuffle` and coordinate (2,1,0), the code
returns `/2/1/0`, which does not lie beneath the shuffle directory. -/
theorem spec_c1_code_bug :
    get_output_file "/tmp/spark-local-x/shuffle" 2 1 0 = "/2/1/0"
    ∧ underDir "/tmp/spark-local-x/shuffle"
        (get_output_file "/tmp/spark-local-x/shuffle" 2 1 0) = false := by
  constructor
  · rfl
  · rfl

/-- Claim C2: `get_local_work_dir` is claimed to return a directory rooted
under the configured local-directory root.  It does not: the joined name
starts with a slash, so `PathBuf::join` discards the configured root.
Evaluated at root `/tmp` with random token `abc` and no pre-existing
directory, the code returns `/spark-local-abc`, which is not under
`/tmp`. -/
theorem spec_c2_code_bug :
    get_local_work_dir "/tmp" (fun _ => "abc") (fun _ => false)
      = .ok "/spark-local-abc"
    ∧ underDir "/tmp" "/spark-local-abc" = false := by
  constructor
  · rfl
  · rfl

/-- Claim C3: for every coordinate (s,i,r) present in the cache with bytes
B, a request whose path is `/shuffle/s/i/r` with the three ids rendered in
decimal produces status 200 with body exactly B. -/
theorem spec_c3_cache_hit (cache : ShuffleCache) (s i r : Nat)
    (B : List Nat)
    (hs : s < 18446744073709551616) (hi : i < 18446744073709551616)
    (hr : r < 18446744073709551616)
    (hc : cache (s, i, r) = some B) (req : HttpRequest)
    (hu : req.uri = "/shuffle/" ++ natToDecimal s ++ "/" ++ natToDecimal i
      ++ "/" ++ natToDecimal r) :
    call cache req = ⟨200, B⟩ := by
  rw [call_shuffle_eq cache req s i r hs hi hr hu, hc]

/-- Witness for C3 at coordinate (2,1,0) with cached bytes [9,8,7]. -/
theorem spec_c3_witness :
    call (fun t => if t = (2, 1, 0) then some [9, 8, 7] else none)
      ⟨"GET", [], [], "/shuffle/" ++ natToDecimal 2 ++ "/" ++ natToDecimal 1
        ++ "/" ++ natToDecimal 0⟩ = ⟨200, [9, 8, 7]⟩ :=
  spec_c3_cache_hit _ 2 1 0 [9, 8, 7] (by decide) (by decide) (by decide)
    rfl _ rfl

/-- Claim C4: for every coordinate (s,i,r) absent from the cache, a request
whose path is `/shuffle/s/i/r` with all three segments valid non-negative
integers produces status 404 with empty body. -/
theorem spec_c4_cache_miss (cache : ShuffleCache) (s i r : Nat)
    (hs : s < 18446744073709551616) (hi : i < 18446744073709551616)
    (hr : r < 18446744073709551616)
    (hc : cache (s, i, r) = none) (req : HttpRequest)
    (hu : req.uri = "/shuffle/" ++ natToDecimal s ++ "/" ++ natToDecimal i
      ++ "/" ++ natToDecimal r) :
    call cache req = ⟨404, []⟩ := by
  rw [call_shuffle_eq cache req s i r hs hi hr hu, hc]

/-- Witness for C4 at coordinate (0,1,2) against an empty cache. -/
theorem spec_c4_witness :
    call (fun _ => none)
      ⟨"GET", [], [], "/shuffle/" ++ natToDecimal 0 ++ "/" ++ natToDecimal 1
        ++ "/" ++ natToDecimal 2⟩ = ⟨404, []⟩ :=
  spec_c4_cache_miss _ 0 1 2 (by decide) (by decide) (by decide) rfl _ rfl

/-- Claim C5: every request whose path starts with a slash, is not
`/status`, and is not a well-formed `/shuffle/int/int/int` path produces
status 400 with body exactly `Failed to parse: ` followed by the path. -/
theorem spec_c5_bad_path (cache : ShuffleCache) (req : HttpRequest)
    (path : String) (hu : req.uri = path) (h1 : leadSlash path = true)
    (h2 : path ≠ "/status") (h3 : isShuffleForm path = false) :
    call cache req = ⟨400, strBytes ("Failed to parse: " ++ path)⟩ := by
  suffices hrt : response_type cache path = .error (.FailedToParseUri path) by
    have hce := call_error cache req (.FailedToParseUri path)
      (by rw [hu]; exact hrt)
    rw [hce]
    rfl
  obtain ⟨t, hpd⟩ : ∃ t, path.data = '/' :: t := by
    unfold leadSlash at h1
    cases hd : path.data with
    | nil =>
      rw [hd] at h1
      simp at h1
    | cons c rest =>
      rw [hd] at h1
      simp at h1
      exact ⟨rest, by rw [h1]⟩
  have hsp0 : splitSlash path.data = [] :: splitSlash t := by
    rw [hpd]
    simp [splitSlash]
  rcases hsp : splitSlash t with _ | ⟨e, _ | ⟨f, _ | ⟨g, _ | ⟨k, _ | ⟨l, tail⟩⟩⟩⟩⟩
  · exact absurd hsp (splitSlash_ne_nil t)
  · rw [hsp] at hsp0
    by_cases he : e = "status".data
    · exfalso
      apply h2
      apply str_eq_of_data
      rw [hpd, splitSlash_single t e hsp, he]
    · unfold response_type
      rw [hsp0]
      simp [he]
  · rw [hsp] at hsp0
    unfold response_type
    rw [hsp0]
  · rw [hsp] at hsp0
    unfold response_type
    rw [hsp0]
  · rw [hsp] at hsp0
    by_cases he : e = "shuffle".data
    · subst he
      unfold response_type
      rw [hsp0]
      cases hpf : parse_path_part f with
      | none => simp [get_cached_data, hpf, Except.map]
      | some p0 =>
        cases hpg : parse_path_part g with
        | none => simp [get_cached_data, hpf, hpg, Except.map]
        | some p1 =>
          cases hpk : parse_path_part k with
          | none => simp [get_cached_data, hpf, hpg, hpk, Except.map]
          | some p2 =>
            exfalso
            have hform : isShuffleForm path = true := by
              unfold isShuffleForm
              rw [hsp0]
              simp [hpf, hpg, hpk]
            rw [hform] at h3
            exact absurd h3 (by decide)
    · unfold response_type
      rw [hsp0]
      simp [he]
  · rw [hsp] at hsp0
    unfold response_type
    rw [hsp0]

/-- Witness for C5 at the request path `/not_valid`. -/
theorem spec_c5_witness :
    call (fun _ => none) ⟨"GET", [], [], "/not_valid"⟩
      = ⟨400, strBytes ("Failed to parse: " ++ "/not_valid")⟩ :=
  spec_c5_bad_path _ _ "/not_valid" rfl rfl (by decide) (by decide)

/-- Claim C6: every request whose path is `/status` produces status 200
with empty body, against any cache. -/
theorem spec_c6_status (cache : ShuffleCache) (req : HttpRequest)
    (hu : req.uri = "/status") :
    call cache req = ⟨200, []⟩ := by
  unfold call response_type
  rw [hu]
  rfl

/-- Witness for C6 on a concrete request. -/
theorem spec_c6_witness :
    call (fun _ => none) ⟨"GET", [], [], "/status"⟩ = ⟨200, []⟩ :=
  spec_c6_status (fun _ => none) ⟨"GET", [], [], "/status"⟩ rfl

/-- Claim C7: every port returned by `get_dynamic_port` lies in the
half-open dynamic range: 49152 inclusive up to 65535 exclusive, for every
possible random draw. -/
theorem spec_c7_port_range (draw : Nat) :
    49152 ≤ get_dynamic_port draw ∧ get_dynamic_port draw < 65535 :=
  dyn_port_range draw

/-- Claim C8: the dynamic-port mode of `start_server` attempts at most 10
ports; if every attempt fails it returns `FreePortNotFound` carrying the
port attempted at retry 9 (the last attempted port), and if some attempt
succeeds first at retry j, the returned URI adopts the port drawn at
retry j. -/
theorem spec_c8_dynamic_retry (ip : String) (draws : Nat → Nat)
    (outcomes : Nat → Bool) :
    (attempted_ports draws outcomes).length ≤ 10
    ∧ ((∀ k, k < 10 → outcomes k = false) →
        start_server_none ip draws outcomes
          = .error (.FreePortNotFound (get_dynamic_port (draws 9))))
    ∧ (∀ j, j < 10 → outcomes j = true →
        (∀ k, k < j → outcomes k = false) →
        start_server_none ip draws outcomes
          = .ok (server_uri ip (get_dynamic_port (draws j)))) := by
  refine ⟨loop_trace_length draws outcomes 10 0, fun hall => ?_,
    fun j hj hjt hfail => ?_⟩
  · unfold start_server_none
    rw [loop_all_fail draws outcomes hall 10 0 (by omega) (by omega)]
    rfl
  · unfold start_server_none
    rw [loop_first_success draws outcomes j hj hjt 10 0 (by omega) (by omega)
      (fun _ _ hk2 => hfail _ hk2)]
    rfl

/-- Witness for C8: with every bind attempt failing, the loop reports
`FreePortNotFound` of the last attempted port. -/
theorem spec_c8_witness :
    start_server_none "1.2.3.4" (fun _ => 7) (fun _ => false)
      = .error (.FreePortNotFound (get_dynamic_port 7)) :=
  (spec_c8_dynamic_retry "1.2.3.4" (fun _ => 7) (fun _ => false)).2.1
    (fun _ _ => rfl)

/-- Counterexample to C9 as stated: with the draw oracle constantly
returning the same value and every bind failing, the loop attempts the
port 49152 ten times, so a port whose bind attempt already failed is
sampled again; the attempt sequence is not duplicate-free. -/
theorem spec_c9_counterexample :
    attempted_ports (fun _ => 0) (fun _ => false) = List.replicate 10 49152
    ∧ ¬ (attempted_ports (fun _ => 0) (fun _ => false)).Nodup := by
  constructor
  · rfl
  · decide

/-- Claim C9 amended: the retry loop keeps no memory of failed ports, so a
port confirmed bound may be sampled again; what the loop does guarantee is
that it makes at most 10 attempts and that every attempted port lies in
the dynamic range 49152 inclusive to 65535 exclusive. -/
theorem spec_c9_amended_bounds (draws : Nat → Nat) (outcomes : Nat → Bool) :
    (attempted_ports draws outcomes).length ≤ 10
    ∧ ∀ p ∈ attempted_ports draws outcomes, 49152 ≤ p ∧ p < 65535 := by
  refine ⟨loop_trace_length draws outcomes 10 0, fun p hp => ?_⟩
  obtain ⟨kk, rfl⟩ := loop_trace_mem draws outcomes 10 0 p hp
  exact dyn_port_range _

/-- Witness for the amended C9 on a concrete draw oracle. -/
theorem spec_c9_amended_witness :
    (attempted_ports (fun _ => 3) (fun _ => false)).length ≤ 10
    ∧ (49152 ≤ get_dynamic_port 3 ∧ get_dynamic_port 3 < 65535) :=
  ⟨(spec_c9_amended_bounds (fun _ => 3) (fun _ => false)).1,
    (spec_c9_amended_bounds (fun _ => 3) (fun _ => false)).2
      (get_dynamic_port 3) (by decide)⟩

/-- Claim C10: the service response is a function of the request URI and
the cache only: two requests with the same URI against the same cache get
identical responses, whatever their method, headers or body. -/
theorem spec_c10_uri_determines (cache : ShuffleCache)
    (r1 r2 : HttpRequest) (h : r1.uri = r2.uri) :
    call cache r1 = call cache r2 := by
  unfold call
  rw [h]

/-- Witness for C10: a GET with headers and body and a bare POST to the
same URI get the same response. -/
theorem spec_c10_witness :
    call (fun _ => none) ⟨"GET", [("x", "y")], [1, 2], "/status"⟩
      = call (fun _ => none) ⟨"POST", [], [], "/status"⟩ :=
  spec_c10_uri_determines (fun _ => none)
    ⟨"GET", [("x", "y")], [1, 2], "/status"⟩
    ⟨"POST", [], [], "/status"⟩ rfl

end NSpark
